import Mathlib

/-!
Shallow embedding of the mddskmgr desktop-overlay program
(src/config.rs and src/windows_main.rs) and verification of the
specification's claims about it.

Modelling conventions:
- OS handles (HWND) are natural numbers; the null handle is `Option.none`
  where the code checks for null.
- Platform queries performed by an event handler (current virtual-desktop
  GUID, high-contrast query, foreground window and its rectangle, the
  configuration file's on-disk content, the result of a modal edit prompt)
  are gathered in an `Env` record supplied to the handler.
- Calls the handlers make to collaborator modules (overlay rendering,
  hotkey registration, atomic save, window show/hide) are recorded as an
  emitted `Command` list; tray balloon notifications are omitted from the
  command model since no claim mentions them.
- The on-disk configuration file is modelled by `FileRead`: missing,
  present-but-unparsable, or a parsed document.  A successfully saved file
  is modelled as holding the saved document itself, since the serde JSON
  derive for these field types round-trips structurally.
-/


namespace Mddskmgr


/-- Desktop label entry, from struct DesktopLabel in src/config.rs:
a title and a description, both defaulting to the empty string. -/
structure DesktopLabel where
  title : String
  description : String
deriving DecidableEq


instance : Inhabited DesktopLabel := ⟨⟨"", ""⟩⟩


/-- Hotkey chord, from struct KeyChord in src/config.rs. -/
structure KeyChord where
  ctrl : Bool
  alt : Bool
  shift : Bool
  key : String
deriving DecidableEq


/-- Hotkey chord set, from struct Hotkeys in src/config.rs. -/
structure Hotkeys where
  edit_title : KeyChord
  edit_description : KeyChord
  toggle_overlay : KeyChord
  snap_position : KeyChord
deriving DecidableEq


/-- Appearance preferences, from struct Appearance in src/config.rs. -/
structure Appearance where
  font_family : String
  font_size_dip : Nat
  margin_px : Int
  hide_on_fullscreen : Bool
deriving DecidableEq


/-- Configuration document, from struct Config in src/config.rs.  The
desktops HashMap is modelled as an association list with distinct string
keys (JSON objects cannot carry duplicate keys). -/
structure Config where
  desktops : List (String × DesktopLabel)
  hotkeys : Hotkeys
  appearance : Appearance
  version : Option Nat
deriving DecidableEq


/-- Default configuration, from impl Default for Config in src/config.rs. -/
def Config.default : Config :=
  { desktops := []
    hotkeys :=
      { edit_title := { ctrl := true, alt := true, shift := false, key := "T" }
        edit_description := { ctrl := true, alt := true, shift := false, key := "D" }
        toggle_overlay := { ctrl := true, alt := true, shift := false, key := "O" }
        snap_position := { ctrl := true, alt := true, shift := false, key := "L" } }
    appearance :=
      { font_family := "Segoe UI", font_size_dip := 16, margin_px := 8
        hide_on_fullscreen := false }
    version := none }


/-- ASCII-case-insensitive string comparison, embedding Rust's
str::eq_ignore_ascii_case as used in src/config.rs: compare the two
character sequences lowercased (Lean's Char.toLower lowercases exactly
the ASCII range, matching Rust's to_ascii_lowercase; the comparison is
done on the character lists because Lean 4.14's String.toLower is not
kernel-reducible). -/
def eq_ignore_ascii_case (a b : String) : Bool :=
  a.toList.map Char.toLower == b.toList.map Char.toLower


/-- Result of reading the configuration file from disk: the file is
missing (fs read error), present but not valid JSON for Config, or
parses to a document. -/
inductive FileRead where
  | missing : FileRead
  | unparsable : FileRead
  | parsed : Config → FileRead
deriving DecidableEq


/-- Embedding of load_or_default (src/config.rs lines 117-171) as a pure
function of the new-location file content and the old-location file
content.  Returns the loaded configuration together with the list of
documents written to disk by save_atomic calls made during loading, in
order (old-app-name migration save first, then the version-migration
save).  Directory creation and logging are omitted. -/
def load_or_default (file old_file : FileRead) : Config × List Config :=
  let base : Config × List Config :=
    match file with
    | .parsed c => (c, [])
    | .unparsable => (Config.default, [])
    | .missing =>
      match old_file with
      | .parsed c => (c, [c])
      | _ => (Config.default, [])
  let cfg := base.1
  if cfg.version = none ∨ cfg.version = some 0 then
    let snap := cfg.hotkeys.snap_position
    let snap' := if eq_ignore_ascii_case snap.key "S" then { snap with key := "L" } else snap
    let cfg' : Config :=
      { cfg with hotkeys := { cfg.hotkeys with snap_position := snap' }, version := some 1 }
    (cfg', base.2 ++ [cfg'])
  else (cfg, base.2)


/-- Embedding of save_atomic (src/config.rs lines 173-185): on success
the file afterwards holds exactly the saved document (write temp, then
rename).  The serde JSON derive round-trips these field types
structurally, so the disk content is modelled as the document itself. -/
def save_atomic (cfg : Config) : FileRead := .parsed cfg


/-- Modelled from the spec: the visibility policy
mddskmgr::core::should_show (the core module is not under src/; only its
caller refresh_visibility_now in src/windows_main.rs is).  Spec section
4.2: show = user_visible AND NOT hidden_by_accessibility AND NOT
hidden_for_fullscreen. -/
def should_show (user_visible hidden_by_accessibility hidden_for_fullscreen : Bool) : Bool :=
  user_visible && !hidden_by_accessibility && !hidden_for_fullscreen


/-- Modelled from the spec: hotkey identifier HK_EDIT_TITLE declared in
the hotkeys module (not under src/); only distinctness of the three
identifiers matters. -/
def HK_EDIT_TITLE : Nat := 1


/-- Modelled from the spec: hotkey identifier HK_EDIT_DESC declared in
the hotkeys module (not under src/). -/
def HK_EDIT_DESC : Nat := 2


/-- Modelled from the spec: hotkey identifier HK_TOGGLE declared in the
hotkeys module (not under src/). -/
def HK_TOGGLE : Nat := 3


/-- HashMap::get on the desktops map: first binding for the key, if any. -/
def lookupDesktop (ds : List (String × DesktopLabel)) (k : String) : Option DesktopLabel :=
  (ds.find? (fun p => p.1 == k)).map Prod.snd


/-- HashMap::entry(key).or_default() followed by storing v: replace the
binding for k if present, else append it. -/
def insertDesktop : List (String × DesktopLabel) → String → DesktopLabel → List (String × DesktopLabel)
  | [], k, v => [(k, v)]
  | (k', v') :: rest, k, v =>
    if k' == k then (k, v) :: rest else (k', v') :: insertDesktop rest k v


/-- Embedding of Rust's char::is_whitespace: the Unicode White_Space
property, i.e. code points U+0009..U+000D, U+0020, U+0085, U+00A0,
U+1680, U+2000..U+200A, U+2028, U+2029, U+202F, U+205F and U+3000
(Lean's Char.isWhitespace covers only space, tab, CR and LF, so the full
set Rust trims is listed explicitly). -/
def rust_is_whitespace (c : Char) : Bool :=
  decide ((0x9 ≤ c.toNat ∧ c.toNat ≤ 0xD) ∨ c.toNat = 0x20 ∨ c.toNat = 0x85 ∨
    c.toNat = 0xA0 ∨ c.toNat = 0x1680 ∨ (0x2000 ≤ c.toNat ∧ c.toNat ≤ 0x200A) ∨
    c.toNat = 0x2028 ∨ c.toNat = 0x2029 ∨ c.toNat = 0x202F ∨ c.toNat = 0x205F ∨
    c.toNat = 0x3000)

/-- Embedding of Rust's title.trim().is_empty() test in
update_overlay_text: the trimmed string is empty iff every character of
the string has the Unicode White_Space property that str::trim removes
(stated over the character list because Lean 4.14's String.trim is not
kernel-reducible). -/
def trim_is_empty (s : String) : Bool :=
  s.toList.all rust_is_whitespace


/-- The text line drawn by update_overlay_text (src/windows_main.rs lines
47-70): look up the label for the guid (default on absence), substitute
the fixed title "Desktop" when the stored title trims to empty, and join
title and description with a colon. -/
def overlay_line (cfg : Config) (guid : String) : String :=
  let label := (lookupDesktop cfg.desktops guid).getD default
  let title := if trim_is_empty label.title then "Desktop" else label.title
  title ++ ":" ++ label.description


/-- A rectangle in screen coordinates (RECT). -/
structure Rect where
  left : Int
  top : Int
  right : Int
  bottom : Int
deriving DecidableEq


/-- Platform inputs consulted by the event handlers during one event. -/
structure Env where
  current_desktop : String
  high_contrast : Bool
  foreground : Option Nat
  window_rect : Option Rect
  work_area : Rect
  file : FileRead
  old_file : FileRead
  paths_ok : Bool
  prompt_result : Option String
deriving DecidableEq


/-- The orchestrator state, from struct AppState in src/windows_main.rs
(window, overlay, tray and watcher-thread handles carry no transition
logic and are reduced to the numeric hwnd). -/
structure AppState where
  hwnd : Nat
  cfg : Config
  current_guid : String
  visible : Bool
  hide_for_accessibility : Bool
  hide_for_fullscreen : Bool
deriving DecidableEq


/-- Embedding of is_foreground_fullscreen (src/windows_main.rs lines
94-118): false when the foreground window is null or is the overlay's own
window, false when GetWindowRect fails, otherwise the 2-pixel-tolerance
work-area coverage test. -/
def is_foreground_fullscreen (env : Env) (ownHwnd : Nat) : Bool :=
  match env.foreground with
  | none => false
  | some fg =>
    if fg == ownHwnd then false
    else
      match env.window_rect with
      | none => false
      | some rc =>
        let tol : Int := 2
        let work := env.work_area
        decide (rc.left ≤ work.left + tol) && decide (rc.top ≤ work.top + tol) &&
          decide (rc.right ≥ work.right - tol) && decide (rc.bottom ≥ work.bottom - tol)


/-- Commands the handlers issue to collaborator modules. -/
inductive Command where
  | render : String → Command
  | unregisterHotkey : Nat → Command
  | registerHotkey : Nat → KeyChord → Command
  | applyVisibility : Bool → Command
  | saveCfg : Config → Command
deriving DecidableEq


/-- Events dispatched by wndproc (src/windows_main.rs lines 223-414),
translated from the numeric window messages. -/
inductive Event where
  | vdSwitched : Event
  | timerVdPoll : Event
  | timerVisibility : Event
  | cfgChanged : Event
  | settingChange : Event
  | sessionChange : Nat → Event
  | hotkeyToggle : Event
  | hotkeyEditTitle : Event
  | hotkeyEditDesc : Event
  | trayDoubleClick : Event
  | cmdToggle : Event
  | cmdEditTitle : Event
  | cmdEditDesc : Event
  | cmdOpenConfig : Event
  | destroy : Event
deriving DecidableEq


/-- The visibility refresh issued by refresh_visibility_now
(src/windows_main.rs lines 120-159): one ShowWindow/SetWindowPos pair
driven by should_show over the current flags. -/
def refresh_cmd (s : AppState) : Command :=
  .applyVisibility (should_show s.visible s.hide_for_accessibility s.hide_for_fullscreen)


/-- Embedding of quick_edit (src/windows_main.rs lines 161-221): snapshot
the current label, run the modal prompt (its result supplied by the
environment); on confirmation merge the edited field, save atomically,
re-render and refresh visibility; on cancel do nothing. -/
def quick_edit (env : Env) (s : AppState) (edit_title : Bool) : AppState × List Command :=
  match env.prompt_result with
  | none => (s, [])
  | some newtext =>
    let key := s.current_guid
    let entry := (lookupDesktop s.cfg.desktops key).getD default
    let entry' :=
      if edit_title then { entry with title := newtext }
      else { entry with description := newtext }
    let cfg' := { s.cfg with desktops := insertDesktop s.cfg.desktops key entry' }
    let s' := { s with cfg := cfg' }
    (s', [.saveCfg cfg', .render (overlay_line cfg' key), refresh_cmd s'])


/-- Shared body of the WM_VD_SWITCHED handler and the WM_TIMER id-1
desktop poller (src/windows_main.rs lines 263-274 and 303-308): re-read
the current desktop guid; if it differs, update state and re-render. -/
def handle_vd (env : Env) (s : AppState) : AppState × List Command :=
  let id := env.current_desktop
  if id ≠ s.current_guid then
    let s' := { s with current_guid := id }
    (s', [.render (overlay_line s.cfg id)])
  else (s, [])


/-- One step of the orchestrator: the event handlers of wndproc
(src/windows_main.rs lines 223-414) as a Mealy transition returning the
new state and the commands issued, in order. -/
def step (env : Env) (s : AppState) : Event → AppState × List Command
  | .vdSwitched => handle_vd env s
  | .timerVdPoll => handle_vd env s
  | .timerVisibility =>
    let s' := { s with hide_for_fullscreen := is_foreground_fullscreen env s.hwnd }
    (s', [refresh_cmd s'])
  | .cfgChanged =>
    if env.paths_ok then
      let new_cfg := (load_or_default env.file env.old_file).1
      let s' := { s with cfg := new_cfg }
      (s',
        [.unregisterHotkey HK_EDIT_TITLE, .unregisterHotkey HK_EDIT_DESC,
          .unregisterHotkey HK_TOGGLE,
          .registerHotkey HK_EDIT_TITLE new_cfg.hotkeys.edit_title,
          .registerHotkey HK_EDIT_DESC new_cfg.hotkeys.edit_description,
          .registerHotkey HK_TOGGLE new_cfg.hotkeys.toggle_overlay,
          .render (overlay_line new_cfg s.current_guid)])
    else (s, [])
  | .settingChange =>
    let s' := { s with hide_for_accessibility := env.high_contrast }
    (s', [refresh_cmd s'])
  | .sessionChange code =>
    let s' :=
      if code = 0x7 then { s with hide_for_accessibility := true }
      else if code = 0x8 then { s with hide_for_accessibility := env.high_contrast }
      else s
    (s', [refresh_cmd s'])
  | .hotkeyToggle =>
    let s' := { s with visible := !s.visible }
    (s', [refresh_cmd s'])
  | .hotkeyEditTitle => quick_edit env s true
  | .hotkeyEditDesc => quick_edit env s false
  | .trayDoubleClick =>
    let s' := { s with visible := true }
    (s', [refresh_cmd s'])
  | .cmdToggle =>
    let s' := { s with visible := !s.visible }
    (s', [refresh_cmd s'])
  | .cmdEditTitle => quick_edit env s true
  | .cmdEditDesc => quick_edit env s false
  | .cmdOpenConfig => (s, [])
  | .destroy =>
    (s,
      [.unregisterHotkey HK_EDIT_TITLE, .unregisterHotkey HK_EDIT_DESC,
        .unregisterHotkey HK_TOGGLE])


/-- Run a sequence of events, each with the platform inputs it observes,
concatenating the commands issued. -/
def run : AppState → List (Env × Event) → AppState × List Command
  | s, [] => (s, [])
  | s, (env, e) :: rest =>
    let p := step env s e
    let q := run p.1 rest
    (q.1, p.2 ++ q.2)


/-- The hotkey registration commands issued by the WM_CREATE handler
(src/windows_main.rs lines 238-240), followed by the initial render. -/
def create_commands (cfg : Config) (guid : String) : List Command :=
  [.registerHotkey HK_EDIT_TITLE cfg.hotkeys.edit_title,
    .registerHotkey HK_EDIT_DESC cfg.hotkeys.edit_description,
    .registerHotkey HK_TOGGLE cfg.hotkeys.toggle_overlay,
    .render (overlay_line cfg guid)]


/-- Effect of one command on the per-identifier count of live OS hotkey
registrations: RegisterHotKey increments, UnregisterHotKey clears. -/
def hk_bump (c : Nat → Nat) (cmd : Command) : Nat → Nat :=
  match cmd with
  | .unregisterHotkey id => fun i => if i = id then 0 else c i
  | .registerHotkey id _ => fun i => if i = id then c i + 1 else c i
  | _ => c


/-- Live-registration counts after a command sequence. -/
def hk_counts (c : Nat → Nat) (cmds : List Command) : Nat → Nat :=
  cmds.foldl hk_bump c


/-- Whether a command is an overlay render call. -/
def is_render : Command → Bool
  | .render _ => true
  | _ => false


/-- Concrete platform inputs for the C8 scenario: high contrast inactive,
configuration file absent. -/
def c8_env : Env :=
  { current_desktop := "g", high_contrast := false, foreground := none
    window_rect := none, work_area := ⟨0, 0, 0, 0⟩, file := .missing
    old_file := .missing, paths_ok := true, prompt_result := none }


/-- Concrete visible starting state for the C8 scenario. -/
def c8_state : AppState :=
  { hwnd := 1, cfg := Config.default, current_guid := "g", visible := true
    hide_for_accessibility := false, hide_for_fullscreen := false }


/-- Concrete platform inputs for the C10 witness: a distinct foreground
window whose rectangle exactly equals the work area. -/
def c10_env : Env :=
  { c8_env with
    foreground := some 5
    window_rect := some ⟨0, 0, 1600, 900⟩
    work_area := ⟨0, 0, 1600, 900⟩ }


/-- Concrete platform inputs for the C10 witness: the foreground window
is the overlay's own window. -/
def c10_env_own : Env :=
  { c8_env with foreground := some 1 }


/-- The document produced by the snap-key migration: snap-hotkey key
replaced by "L" and version set to 1, everything else unchanged. -/
def snap_migrated (d : Config) : Config :=
  { d with
    hotkeys :=
      { d.hotkeys with snap_position := { d.hotkeys.snap_position with key := "L" } }
    version := some 1 }


/-- Concrete pre-migration document for the C3 witness: defaults with the
historical snap key "S" and no version field. -/
def c3_pre : Config :=
  { Config.default with
    hotkeys :=
      { Config.default.hotkeys with
        snap_position := { ctrl := true, alt := true, shift := false, key := "S" } } }


/-- Concrete already-migrated document for the C3 witness. -/
def c3_v1 : Config :=
  { Config.default with version := some 1 }


/-- Concrete document for the C5 counterexample: defaults except that the
snap-hotkey key is the historical "S" and the version field is absent. -/
def c5_cfg : Config :=
  { Config.default with
    hotkeys :=
      { Config.default.hotkeys with
        snap_position := { ctrl := true, alt := true, shift := false, key := "S" } } }


/-- Concrete platform inputs for the C4 counterexample: the platform
resolves the current desktop to the identifier the state already holds. -/
def c4_env : Env :=
  { current_desktop := "g", high_contrast := false, foreground := none
    window_rect := none, work_area := ⟨0, 0, 0, 0⟩, file := .missing
    old_file := .missing, paths_ok := true, prompt_result := none }


/-- Concrete starting state for the C4 counterexample, already on
desktop "g". -/
def c4_state : AppState :=
  { hwnd := 1, cfg := Config.default, current_guid := "g", visible := true
    hide_for_accessibility := false, hide_for_fullscreen := false }


/-- Concrete in-memory configuration for the C2 failing input: the
current desktop "g" is mapped to a custom label. -/
def c2_cfg : Config :=
  { Config.default with desktops := [("g", ⟨"Work", "W"⟩)], version := some 1 }


/-- Concrete orchestrator state for the C2 failing input. -/
def c2_state : AppState :=
  { hwnd := 1, cfg := c2_cfg, current_guid := "g", visible := true
    hide_for_accessibility := false, hide_for_fullscreen := false }


/-- Concrete platform inputs for the C2 failing input: the configuration
file on disk is present but contains invalid syntax. -/
def c2_env : Env :=
  { current_desktop := "g", high_contrast := false, foreground := none
    window_rect := none, work_area := ⟨0, 0, 0, 0⟩, file := .unparsable
    old_file := .missing, paths_ok := true, prompt_result := none }


/-- C1: the visibility policy is the pure conjunction of the three flags:
for every combination, should_show returns visible iff user_visible is
true and both hide flags are false. -/
theorem c1_visibility_policy :
    ∀ u h f : Bool, should_show u h f = true ↔ (u = true ∧ h = false ∧ f = false) := by
  decide


/-- C7: a session-lock event (code 0x7) sets hidden_by_accessibility true
unconditionally; session-unlock (code 0x8) and a generic settings-change
event set it to the live high-contrast query; each handler recomputes and
applies visibility afterwards from the updated flags. -/
theorem c7_session_accessibility (env : Env) (s : AppState) :
    step env s (.sessionChange 0x7) =
      ({ s with hide_for_accessibility := true },
        [.applyVisibility (should_show s.visible true s.hide_for_fullscreen)])
    ∧ step env s (.sessionChange 0x8) =
      ({ s with hide_for_accessibility := env.high_contrast },
        [.applyVisibility (should_show s.visible env.high_contrast s.hide_for_fullscreen)])
    ∧ step env s .settingChange =
      ({ s with hide_for_accessibility := env.high_contrast },
        [.applyVisibility (should_show s.visible env.high_contrast s.hide_for_fullscreen)]) := by
  refine ⟨?_, ?_, ?_⟩ <;> simp [step, refresh_cmd]


/-- C8: from a visible state, toggling visibility off, then session-lock,
then session-unlock with high contrast inactive ends with the overlay
hidden: user_visible is still false even though hidden_by_accessibility
has been cleared, and every visibility command issued after the toggle is
a hide. -/
theorem c8_toggle_lock_unlock_hidden :
    should_show c8_state.visible c8_state.hide_for_accessibility c8_state.hide_for_fullscreen = true
    ∧ (run c8_state
        [(c8_env, .hotkeyToggle), (c8_env, .sessionChange 0x7), (c8_env, .sessionChange 0x8)]).1
      = { c8_state with visible := false }
    ∧ (run c8_state
        [(c8_env, .hotkeyToggle), (c8_env, .sessionChange 0x7), (c8_env, .sessionChange 0x8)]).2
      = [.applyVisibility false, .applyVisibility false, .applyVisibility false] := by
  decide


/-- C9: the overlay line renders the fixed default title "Desktop" when
the stored label is absent or its title consists only of Unicode
White_Space characters (including empty), together with the stored
description; a title with some non-whitespace character is rendered
verbatim. -/
theorem c9_default_title (cfg : Config) (guid : String) :
    (lookupDesktop cfg.desktops guid = none →
      overlay_line cfg guid = "Desktop" ++ ":" ++ "")
    ∧ (∀ l, lookupDesktop cfg.desktops guid = some l →
      (∀ c ∈ l.title.toList, rust_is_whitespace c = true) →
      overlay_line cfg guid = "Desktop" ++ ":" ++ l.description)
    ∧ (∀ l, lookupDesktop cfg.desktops guid = some l →
      (∃ c ∈ l.title.toList, rust_is_whitespace c = false) →
      overlay_line cfg guid = l.title ++ ":" ++ l.description) := by
  refine ⟨?_, ?_, ?_⟩
  · intro h
    simp [overlay_line, h, default, trim_is_empty]
  · intro l h ht
    have ht' : trim_is_empty l.title = true := by
      simp [trim_is_empty, List.all_eq_true]
      exact fun c hc => ht c hc
    simp [overlay_line, h, ht']
  · intro l h ht
    obtain ⟨c, hc, hcw⟩ := ht
    have hne : trim_is_empty l.title = false := by
      simp [trim_is_empty, List.all_eq_true]
      exact ⟨c, hc, by simp [hcw]⟩
    simp [overlay_line, h, hne]


/-- C9 witness: a title holding only spaces and a form feed (which Rust
trims but Lean's own Char.isWhitespace would not) renders as the default
title with the stored description, and a non-whitespace title renders
verbatim. -/
theorem c9_default_title_witness :
    overlay_line { Config.default with desktops := [("g", ⟨" \x0C ", "notes"⟩)] } "g"
      = "Desktop" ++ ":" ++ "notes"
    ∧ overlay_line { Config.default with desktops := [("g", ⟨"Work", "w"⟩)] } "g"
      = "Work" ++ ":" ++ "w" :=
  ⟨(c9_default_title
        { Config.default with desktops := [("g", ⟨" \x0C ", "notes"⟩)] } "g").2.1
      ⟨" \x0C ", "notes"⟩ (by decide) (by decide),
    (c9_default_title { Config.default with desktops := [("g", ⟨"Work", "w"⟩)] } "g").2.2
      ⟨"Work", "w"⟩ (by decide) ⟨'W', by decide, by decide⟩⟩


/-- C10: fullscreen detection returns false for a null foreground window
or the overlay's own window (so the overlay never sets its own
hide_for_fullscreen flag, as the timer handler shows); otherwise, when
the foreground rectangle is readable, it detects fullscreen iff the
rectangle covers the work area within a 2-pixel tolerance on each edge. -/
theorem c10_fullscreen_detection (env : Env) (s : AppState) (own w : Nat) (rc : Rect) :
    (env.foreground = none → is_foreground_fullscreen env own = false)
    ∧ (env.foreground = some own → is_foreground_fullscreen env own = false)
    ∧ (env.foreground = some w → w ≠ own → env.window_rect = some rc →
      (is_foreground_fullscreen env own = true ↔
        (rc.left ≤ env.work_area.left + 2 ∧ rc.top ≤ env.work_area.top + 2 ∧
          rc.right ≥ env.work_area.right - 2 ∧ rc.bottom ≥ env.work_area.bottom - 2)))
    ∧ (env.foreground = some s.hwnd →
      (step env s .timerVisibility).1.hide_for_fullscreen = false) := by
  refine ⟨?_, ?_, ?_, ?_⟩
  · intro h
    simp [is_foreground_fullscreen, h]
  · intro h
    simp [is_foreground_fullscreen, h]
  · intro h hw hr
    simp [is_foreground_fullscreen, h, hr, hw, and_assoc]
  · intro h
    simp [step, is_foreground_fullscreen, h]


/-- C10 witness: concrete evaluations of the fullscreen detector through
the theorem: a distinct foreground window whose rectangle equals the work
area is detected, and a foreground equal to the overlay's own window is
not and leaves hide_for_fullscreen false after the visibility timer. -/
theorem c10_fullscreen_detection_witness :
    is_foreground_fullscreen c10_env 1 = true
    ∧ is_foreground_fullscreen c10_env_own 1 = false
    ∧ is_foreground_fullscreen c8_env 1 = false
    ∧ (step c10_env_own c8_state .timerVisibility).1.hide_for_fullscreen = false :=
  ⟨((c10_fullscreen_detection c10_env c8_state 1 5 ⟨0, 0, 1600, 900⟩).2.2.1
      rfl (by decide) rfl).mpr (by decide),
    (c10_fullscreen_detection c10_env_own c8_state 1 1 ⟨0, 0, 0, 0⟩).2.1 rfl,
    (c10_fullscreen_detection c8_env c8_state 1 0 ⟨0, 0, 0, 0⟩).1 rfl,
    (c10_fullscreen_detection c10_env_own c8_state 1 1 ⟨0, 0, 0, 0⟩).2.2.2 rfl⟩


/-- C3: loading a document with version absent or 0 and snap-hotkey key
"S" yields the document with the snap key changed to "L" and version 1,
and writes exactly that rewritten document back to disk; a document
already at version 1 loads unchanged with no write. -/
theorem c3_migration (d : Config) (old : FileRead) :
    ((d.version = none ∨ d.version = some 0) → d.hotkeys.snap_position.key = "S" →
      load_or_default (.parsed d) old = (snap_migrated d, [snap_migrated d]))
    ∧ (d.version = some 1 → load_or_default (.parsed d) old = (d, [])) := by
  constructor
  · intro hv hk
    have hS : eq_ignore_ascii_case d.hotkeys.snap_position.key "S" = true := by
      rw [hk]; decide
    simp [load_or_default, hv, hS, snap_migrated]
  · intro hv
    simp [load_or_default, hv]


/-- C3 witness: the migration rewrites the concrete version-absent
document with snap key "S", and leaves the concrete version-1 document
untouched. -/
theorem c3_migration_witness :
    load_or_default (.parsed c3_pre) .missing = (snap_migrated c3_pre, [snap_migrated c3_pre])
    ∧ load_or_default (.parsed c3_v1) .missing = (c3_v1, []) :=
  ⟨(c3_migration c3_pre .missing).1 (Or.inl rfl) rfl,
    (c3_migration c3_v1 .missing).2 rfl⟩


/-- C5 counterexample: saving this version-absent document whose snap key
is "S" and reloading it changes the snap hotkey chord to key "L", so the
hotkey chords, a user-meaningful field, are not preserved by the
round-trip; the claim's universal round-trip statement is false. -/
theorem c5_roundtrip_counterexample :
    (load_or_default (save_atomic c5_cfg) .missing).1.hotkeys ≠ c5_cfg.hotkeys := by
  decide


/-- C5 amended: save-then-reload preserves the desktop label mapping, the
hotkey chords and the appearance settings for every document not subject
to the snap-key migration, i.e. whose version field is present and
nonzero, or whose snap-hotkey key is not "S" case-insensitively (a
version-absent or version-0 document with snap key "S" instead comes
back with the snap key rewritten to "L"). -/
theorem c5_roundtrip_amended (d : Config) (old : FileRead)
    (h : ¬(d.version = none ∨ d.version = some 0)
      ∨ eq_ignore_ascii_case d.hotkeys.snap_position.key "S" = false) :
    (load_or_default (save_atomic d) old).1.desktops = d.desktops
    ∧ (load_or_default (save_atomic d) old).1.hotkeys = d.hotkeys
    ∧ (load_or_default (save_atomic d) old).1.appearance = d.appearance := by
  rcases h with h | h
  · simp [load_or_default, save_atomic, h]
  · by_cases hv : d.version = none ∨ d.version = some 0
    · simp [load_or_default, save_atomic, hv, h]
    · simp [load_or_default, save_atomic, hv]


/-- C5 witness: the round-trip preserves all user-meaningful fields of
the concrete version-1 default document. -/
theorem c5_roundtrip_amended_witness :
    (load_or_default (save_atomic { Config.default with version := some 1 }) .missing).1.desktops
      = ({ Config.default with version := some 1 } : Config).desktops
    ∧ (load_or_default (save_atomic { Config.default with version := some 1 }) .missing).1.hotkeys
      = ({ Config.default with version := some 1 } : Config).hotkeys
    ∧ (load_or_default (save_atomic { Config.default with version := some 1 }) .missing).1.appearance
      = ({ Config.default with version := some 1 } : Config).appearance :=
  c5_roundtrip_amended { Config.default with version := some 1 } .missing (by decide)


/-- C4 counterexample: two consecutive desktop-change events that both
resolve to the identifier the state already holds produce zero render
calls, not the exactly one the claim asserts for every state. -/
theorem c4_desktop_changed_counterexample :
    ((step c4_env c4_state .vdSwitched).2
        ++ (step c4_env (step c4_env c4_state .vdSwitched).1 .vdSwitched).2).countP is_render
      ≠ 1 := by
  decide


/-- C4 amended: two consecutive desktop-change events resolving to the
same identifier produce exactly one render call when that identifier
differs from current_desktop_id and none when it already matches; the
first event leaves current_desktop_id equal to the resolved identifier
and the second is a complete no-op; the handler never changes the three
visibility flags; and the polling-timer handler behaves identically to
the event-based one. -/
theorem c4_desktop_changed (env : Env) (s : AppState) :
    (((step env s .vdSwitched).2
        ++ (step env (step env s .vdSwitched).1 .vdSwitched).2).countP is_render
      = if env.current_desktop = s.current_guid then 0 else 1)
    ∧ (step env s .vdSwitched).1.current_guid = env.current_desktop
    ∧ step env (step env s .vdSwitched).1 .vdSwitched = ((step env s .vdSwitched).1, [])
    ∧ (step env s .vdSwitched).1.visible = s.visible
    ∧ (step env s .vdSwitched).1.hide_for_accessibility = s.hide_for_accessibility
    ∧ (step env s .vdSwitched).1.hide_for_fullscreen = s.hide_for_fullscreen
    ∧ step env s .timerVdPoll = step env s .vdSwitched := by
  by_cases h : env.current_desktop = s.current_guid <;>
    simp [step, handle_vd, h, is_render]


/-- C2: evaluation of the code at the failing input: with invalid JSON on
disk, load_or_default reports success carrying the defaults, so the
WM_CFG_CHANGED handler replaces the in-memory configuration (with the
migrated defaults), unregisters and re-registers all hotkey identifiers,
and re-renders, changing the current desktop's rendered label from
"Work:W" to "Desktop:" — contradicting the claim that the previous
configuration, the rendered label and the hotkey registrations are left
untouched on parse failure. -/
theorem c2_config_parse_failure :
    (step c2_env c2_state .cfgChanged).1.cfg ≠ c2_state.cfg
    ∧ (step c2_env c2_state .cfgChanged).1.cfg = { Config.default with version := some 1 }
    ∧ Command.unregisterHotkey HK_EDIT_TITLE ∈ (step c2_env c2_state .cfgChanged).2
    ∧ Command.registerHotkey HK_TOGGLE Config.default.hotkeys.toggle_overlay
      ∈ (step c2_env c2_state .cfgChanged).2
    ∧ overlay_line c2_state.cfg c2_state.current_guid = "Work:W"
    ∧ Command.render "Desktop:" ∈ (step c2_env c2_state .cfgChanged).2 := by
  decide


/-- Registration counts compose over command-list concatenation. -/
lemma hk_counts_append (c : Nat → Nat) (l1 l2 : List Command) :
    hk_counts c (l1 ++ l2) = hk_counts (hk_counts c l1) l2 := by
  simp [hk_counts, List.foldl_append]


/-- Each event's command block keeps every identifier's live-registration
count at most 1: the reload block unregisters all three identifiers
before registering each exactly once, the shutdown block only
unregisters, and no other block touches hotkeys. -/
lemma step_hk_le (env : Env) (s : AppState) (e : Event) (c : Nat → Nat)
    (hc : ∀ j, c j ≤ 1) (i : Nat) : hk_counts c (step env s e).2 i ≤ 1 := by
  cases e with
  | vdSwitched =>
    by_cases h : env.current_desktop ≠ s.current_guid <;>
      simp [step, handle_vd, h, hk_counts, hk_bump, hc i]
  | timerVdPoll =>
    by_cases h : env.current_desktop ≠ s.current_guid <;>
      simp [step, handle_vd, h, hk_counts, hk_bump, hc i]
  | timerVisibility =>
    simpa [step, refresh_cmd, hk_counts, hk_bump] using hc i
  | cfgChanged =>
    by_cases hp : env.paths_ok = true
    · simp only [step, hp, if_true, hk_counts, List.foldl_cons, List.foldl_nil, hk_bump,
        HK_EDIT_TITLE, HK_EDIT_DESC, HK_TOGGLE]
      split_ifs <;> first | exact hc i | omega
    · simp [step, hp, hk_counts, hc i]
  | settingChange =>
    simpa [step, refresh_cmd, hk_counts, hk_bump] using hc i
  | sessionChange code =>
    simpa [step, refresh_cmd, hk_counts, hk_bump] using hc i
  | hotkeyToggle =>
    simpa [step, refresh_cmd, hk_counts, hk_bump] using hc i
  | hotkeyEditTitle =>
    cases hpr : env.prompt_result <;>
      simp [step, quick_edit, hpr, refresh_cmd, hk_counts, hk_bump, hc i]
  | hotkeyEditDesc =>
    cases hpr : env.prompt_result <;>
      simp [step, quick_edit, hpr, refresh_cmd, hk_counts, hk_bump, hc i]
  | trayDoubleClick =>
    simpa [step, refresh_cmd, hk_counts, hk_bump] using hc i
  | cmdToggle =>
    simpa [step, refresh_cmd, hk_counts, hk_bump] using hc i
  | cmdEditTitle =>
    cases hpr : env.prompt_result <;>
      simp [step, quick_edit, hpr, refresh_cmd, hk_counts, hk_bump, hc i]
  | cmdEditDesc =>
    cases hpr : env.prompt_result <;>
      simp [step, quick_edit, hpr, refresh_cmd, hk_counts, hk_bump, hc i]
  | cmdOpenConfig =>
    simpa [step, hk_counts] using hc i
  | destroy =>
    simp only [step, hk_counts, List.foldl_cons, List.foldl_nil, hk_bump,
      HK_EDIT_TITLE, HK_EDIT_DESC, HK_TOGGLE]
    split_ifs <;> first | exact hc i | omega


/-- Along any event trace, the per-identifier live-registration count
stays at most 1 when it starts at most 1. -/
lemma run_hk_le (tr : List (Env × Event)) :
    ∀ (s : AppState) (c : Nat → Nat), (∀ j, c j ≤ 1) →
      ∀ i, hk_counts c (run s tr).2 i ≤ 1 := by
  induction tr with
  | nil =>
    intro s c hc i
    simpa [run, hk_counts] using hc i
  | cons p rest ih =>
    intro s c hc i
    obtain ⟨env, e⟩ := p
    rw [show (run s ((env, e) :: rest)).2
        = (step env s e).2 ++ (run (step env s e).1 rest).2 from rfl]
    rw [hk_counts_append]
    exact ih (step env s e).1 (hk_counts c (step env s e).2)
      (fun j => step_hk_le env s e c hc j) i


/-- The startup registrations, starting from no live registrations,
register each of the three distinct identifiers exactly once. -/
lemma create_hk_le (cfg : Config) (guid : String) (i : Nat) :
    hk_counts (fun _ => 0) (create_commands cfg guid) i ≤ 1 := by
  simp only [create_commands, hk_counts, List.foldl_cons, List.foldl_nil, hk_bump,
    HK_EDIT_TITLE, HK_EDIT_DESC, HK_TOGGLE]
  split_ifs <;> omega


/-- C6: hotkey registration discipline: starting from no live OS
registrations, the startup registrations followed by the commands of an
arbitrary event trace keep at most one live registration per identifier
at every point measured after the trace; the configuration-reload
handler emits unregisters of all three identifiers before any register
of the new chords; and the shutdown handler emits exactly the three
unregisters. -/
theorem c6_hotkey_discipline (cfg : Config) (guid : String) (s0 : AppState)
    (tr : List (Env × Event)) (i : Nat) (env : Env) (s : AppState) :
    hk_counts (fun _ => 0) (create_commands cfg guid ++ (run s0 tr).2) i ≤ 1
    ∧ (step env s .cfgChanged).2 =
      (if env.paths_ok then
        [Command.unregisterHotkey HK_EDIT_TITLE, Command.unregisterHotkey HK_EDIT_DESC,
          Command.unregisterHotkey HK_TOGGLE,
          Command.registerHotkey HK_EDIT_TITLE
            (load_or_default env.file env.old_file).1.hotkeys.edit_title,
          Command.registerHotkey HK_EDIT_DESC
            (load_or_default env.file env.old_file).1.hotkeys.edit_description,
          Command.registerHotkey HK_TOGGLE
            (load_or_default env.file env.old_file).1.hotkeys.toggle_overlay,
          Command.render
            (overlay_line (load_or_default env.file env.old_file).1 s.current_guid)]
      else [])
    ∧ (step env s .destroy).2 =
      [Command.unregisterHotkey HK_EDIT_TITLE, Command.unregisterHotkey HK_EDIT_DESC,
        Command.unregisterHotkey HK_TOGGLE] := by
  refine ⟨?_, ?_, ?_⟩
  · rw [hk_counts_append]
    exact run_hk_le tr s0 _ (fun j => create_hk_le cfg guid j) i
  · by_cases hp : env.paths_ok = true <;> simp [step, hp]
  · rfl


end Mddskmgr
